import Mathlib

/-
Verification of the request-validation-and-persistence pipeline of the
todo-list service (src/examples/peewee_example.py).

The handlers (`register`, `get_todo`, `toggledone`, `new_todo`), the schema
hooks (`UserSchema.process_input`, `TodoSchema.make_object`) and the auth
helper (`check_auth`) are translated directly from the source file.  The
marshmallow schema machinery (field validation, load/dump, envelopes) and the
persistence store (peewee) are not present under src/; they are modelled from
the specification (§4.1 persistence-store collaborator, §4.2 schema layer),
as marked by the doc comments below.

JSON values are modelled by the inductive type `J`; Python dicts by
association lists with first-match lookup; timestamps by natural-number
ticks supplied as an explicit `now` argument; an unhandled Python exception
by `Except.error (f : Fault)` escaping a handler.
-/

/-- Wire-level JSON values (payloads and response bodies). -/
inductive J where
  | s (v : String)
  | n (v : Nat)
  | b (v : Bool)
  | obj (fields : List (String × J))
  | arr (elems : List J)
  | null

/-- A Python dict holding JSON values (payloads, validated data). -/
def Data := List (String × J)

/-- Dictionary lookup (first binding wins, as in a dict with unique keys). -/
def dlookup : List (String × J) → String → Option J
  | [], _ => none
  | (k, v) :: rest, key => if key = k then some v else dlookup rest key

/-- Dictionary assignment `d[k] = v` for a key already present in `d`
(the only use in the source re-assigns the key it just read). -/
def setKey (d : Data) (k : String) (v : J) : Data :=
  List.map (fun p => if p.1 = k then (k, v) else p) d

/-- Python `str.lower()` restricted to ASCII case mapping. -/
def pyLower (s : String) : String := ⟨s.data.map Char.toLower⟩

/-- Whitespace characters stripped by Python `str.strip()`. -/
def isWs (c : Char) : Bool := c = ' ' || c = '\t' || c = '\n' || c = '\r'

/-- Python `str.strip()`: drop leading and trailing whitespace. -/
def pyStrip (s : String) : String :=
  ⟨((s.data.dropWhile isWs).reverse.dropWhile isWs).reverse⟩

/-- Modelled from the spec: the email-address pattern of `validate.Email`
(marshmallow source is not under src/).  The spec only requires "must match
an email address pattern"; we use: exactly one `@`, non-empty local part,
non-empty domain containing a dot. -/
def isEmail (s : String) : Bool :=
  match s.data.splitOn '@' with
  | [loc, domain] => (!loc.isEmpty) && (!domain.isEmpty) && domain.contains '.'
  | _ => false

/-- An unhandled Python exception escaping an operation handler. -/
inductive Fault where
  | keyError (key : String)
  | doesNotExist (model : String)
  | attributeError (msg : String)
deriving DecidableEq, Repr

/-- Outcome of a failed schema load: a `ValidationError` carrying per-field
messages, or an exception raised inside a hook. -/
inductive LoadErr where
  | validation (messages : List (String × List String))
  | fault (f : Fault)

/-- Persisted User row (model `User`). -/
structure UserRec where
  id : Nat
  email : String
  password : String
  joined_on : Nat
deriving DecidableEq, Repr

/-- Persisted Todo row (model `Todo`). -/
structure TodoRec where
  id : Nat
  content : String
  is_done : Bool
  user : Nat
  posted_on : Nat
deriving DecidableEq, Repr

/-- An in-memory `Todo(...)` instance not yet saved: no id assigned, owner
possibly not yet set (`make_object` builds it without a user). -/
structure TodoDraft where
  content : String
  is_done : Bool
  posted_on : Nat
  user : Option Nat
deriving DecidableEq, Repr

/-- The relational store's state: the two entity tables. -/
structure DB where
  users : List UserRec
  todos : List TodoRec
deriving DecidableEq, Repr

/-- Modelled from the spec: store `get(predicate)` for `User.get(User.email
== e)` — "entity or fails with NotFound" (§4.1). -/
def userGetByEmail (db : DB) (e : String) : Except Fault UserRec :=
  match db.users.find? (fun u => u.email = e) with
  | some u => Except.ok u
  | none => Except.error (Fault.doesNotExist "User")

/-- Modelled from the spec: store `get(predicate)` for `Todo.get(Todo.id ==
pk)` — "entity or fails with NotFound" (§4.1). -/
def todoGetById (db : DB) (pk : Nat) : Except Fault TodoRec :=
  match db.todos.find? (fun t => t.id = pk) with
  | some t => Except.ok t
  | none => Except.error (Fault.doesNotExist "Todo")

/-- Modelled from the spec: system-assigned unique integer id for a new User
row (§3: "id: integer, system-assigned, unique"). -/
def nextUserId (db : DB) : Nat :=
  (db.users.map (fun u => u.id)).foldr max 0 + 1

/-- Modelled from the spec: system-assigned unique integer id for a new Todo
row (§3). -/
def nextTodoId (db : DB) : Nat :=
  (db.todos.map (fun t => t.id)).foldr max 0 + 1

/-- Modelled from the spec: store `update(id, fields)` (§4.1) realising
`todo.update(is_done=status).execute()` — sets `is_done` on the row keyed by
the instance's id.  The in-memory instance is not mutated. -/
def todoUpdateIsDone (db : DB) (k : Nat) (b : Bool) : DB :=
  { db with todos :=
      db.todos.map (fun t => if t.id = k then { t with is_done := b } else t) }

/-- Modelled from the spec: store `create` for `todo.save()` — inserts the
draft as a new row with a fresh id; the owner foreign key is required (§3). -/
def todoSave (db : DB) (d : TodoDraft) : Except Fault (DB × TodoRec) :=
  match d.user with
  | none => Except.error (Fault.attributeError "Todo.user is unset")
  | some uid =>
    let t : TodoRec :=
      { id := nextTodoId db, content := d.content, is_done := d.is_done,
        user := uid, posted_on := d.posted_on }
    Except.ok ({ db with todos := db.todos ++ [t] }, t)

/-- Python truthiness of a fetched entity instance: a peewee model object
defines no falsiness, so `not todo` is always `False` for an instance
returned by a successful `get`. -/
def todoTruthy (_ : TodoRec) : Bool := true

/-- Render a per-field message set as the JSON body value of
`err.messages`. -/
def errsToJ (errs : List (String × List String)) : J :=
  J.obj (errs.map (fun p => (p.1, J.arr (p.2.map J.s))))

/-- The `pre_load` hook `UserSchema.process_input` from the source:
`data["email"] = data["email"].lower().strip()`.  Indexing a missing key
raises `KeyError`; calling `.lower()` on a non-string raises
`AttributeError`. -/
def UserSchema.process_input (data : Data) : Except Fault Data :=
  match dlookup data "email" with
  | none => Except.error (Fault.keyError "email")
  | some (J.s e) => Except.ok (setKey data "email" (J.s (pyStrip (pyLower e))))
  | some _ => Except.error (Fault.attributeError "no attribute lower")

/-- Modelled from the spec: field validation of `UserSchema` (§4.2) — each
field is checked against its rule set (email: required, email pattern, with
the error message declared in the source; password: required, length in
[6,36]) and every violation is collected, keyed by field name, without
short-circuiting. -/
def UserSchema.validateFields (d : Data) : List (String × List String) :=
  (match dlookup d "email" with
   | none => [("email", ["Missing data for required field."])]
   | some (J.s e) =>
     if isEmail e then [] else [("email", ["Not a valid email address"])]
   | some _ => [("email", ["Not a valid string."])]) ++
  (match dlookup d "password" with
   | none => [("password", ["Missing data for required field."])]
   | some (J.s p) =>
     if 6 ≤ p.length ∧ p.length ≤ 36 then []
     else [("password", ["Length must be between 6 and 36."])]
   | some _ => [("password", ["Not a valid string."])])

/-- The validated data produced by a successful `UserSchema` load (a dict
with exactly the two loadable fields; `id` and `joined_on` are dump-only). -/
structure ULoaded where
  email : String
  password : String
deriving DecidableEq, Repr

/-- Modelled from the spec: `UserSchema().load` (§4.2 load path) — run the
`pre_load` hook, then validate every field collecting violations; fail with
`ValidationError` if any exist, otherwise produce the validated data. -/
def UserSchema.load (input : Data) : Except LoadErr ULoaded :=
  match UserSchema.process_input input with
  | Except.error f => Except.error (LoadErr.fault f)
  | Except.ok d =>
    match UserSchema.validateFields d with
    | [] =>
      match dlookup d "email", dlookup d "password" with
      | some (J.s e), some (J.s p) => Except.ok { email := e, password := p }
      | _, _ => Except.error (LoadErr.fault (Fault.keyError "unreachable"))
    | errs => Except.error (LoadErr.validation errs)

/-- Modelled from the spec: `UserSchema().dump` (§4.2 dump path) — serialize
the dump-eligible fields `id`, `email`, `joined_on` (never `password`) and
wrap in the singular `user` envelope (the `post_dump` hook `wrap`). -/
def UserSchema.dump (u : UserRec) : J :=
  J.obj [("user", J.obj [("id", J.n u.id), ("email", J.s u.email),
                         ("joined_on", J.n u.joined_on)])]

/-- Modelled from the spec: field validation of `TodoSchema` (§4.2) —
`content` is required (a string field with no further validators in the
source); wire field `done` is an optional boolean defaulting when absent;
violations are collected keyed by field name, in field-declaration order. -/
def TodoSchema.validateFields (input : Data) : List (String × List String) :=
  (match dlookup input "done" with
   | none => []
   | some (J.b _) => []
   | some _ => [("done", ["Not a valid boolean."])]) ++
  (match dlookup input "content" with
   | none => [("content", ["Missing data for required field."])]
   | some (J.s _) => []
   | some _ => [("content", ["Not a valid string."])])

/-- Modelled from the spec: the validated data dict of a `TodoSchema` load —
declared loadable fields only, keyed by attribute name (`done` maps to
attribute `is_done`, defaulting to false when absent, §4.2 table). -/
def TodoSchema.validatedData (input : Data) : Data :=
  (match dlookup input "done" with
   | some (J.b b) => [("is_done", J.b b)]
   | _ => [("is_done", J.b false)]) ++
  (match dlookup input "content" with
   | some v => [("content", v)]
   | none => [])

/-- The `post_load` hook `TodoSchema.make_object` from the source: return
`None` on an empty dict, otherwise build a Todo instance from
`data["content"]` and `data["is_done"]`, stamping `posted_on` with the
current time.  A missing key would raise `KeyError`. -/
def TodoSchema.make_object (data : Data) (now : Nat) :
    Except Fault (Option TodoDraft) :=
  if data.isEmpty then Except.ok none
  else
    match dlookup data "content" with
    | none => Except.error (Fault.keyError "content")
    | some cv =>
      match dlookup data "is_done" with
      | none => Except.error (Fault.keyError "is_done")
      | some dv =>
        match cv, dv with
        | J.s c, J.b b =>
          Except.ok (some { content := c, is_done := b, posted_on := now,
                            user := none })
        | _, _ => Except.error (Fault.attributeError "ill-typed field value")

/-- Modelled from the spec: `TodoSchema().load` (§4.2 load path) — validate
the fields collecting violations; fail with `ValidationError` if any exist,
otherwise run the `post_load` hook `make_object` on the validated data. -/
def TodoSchema.load (input : Data) (now : Nat) :
    Except LoadErr (Option TodoDraft) :=
  match TodoSchema.validateFields input with
  | [] =>
    match TodoSchema.make_object (TodoSchema.validatedData input) now with
    | Except.error f => Except.error (LoadErr.fault f)
    | Except.ok r => Except.ok r
  | errs => Except.error (LoadErr.validation errs)

/-- Modelled from the spec: the nested User summary inside a dumped Todo —
`fields.Nested(UserSchema(exclude=("joined_on", "password")))` serializes
only `id` and `email` of the owner, resolved from the store. -/
def userNested (db : DB) (uid : Nat) : J :=
  match db.users.find? (fun u => u.id = uid) with
  | some u => J.obj [("id", J.n u.id), ("email", J.s u.email)]
  | none => J.null

/-- Modelled from the spec: `TodoSchema().dump` (§4.2 dump path) — serialize
the dump-eligible fields in declaration order (`id`, `done` from attribute
`is_done`, the nested user summary, `content`, `posted_on`) and wrap in the
singular `todo` envelope (the `post_dump` hook `wrap`). -/
def TodoSchema.dump (db : DB) (t : TodoRec) : J :=
  J.obj [("todo", J.obj [("id", J.n t.id), ("done", J.b t.is_done),
                         ("user", userNested db t.user),
                         ("content", J.s t.content),
                         ("posted_on", J.n t.posted_on)])]

/-- The `register` handler from the source.  Returns `(db, status, body)` on
a handled outcome, `Except.error` when an exception escapes the handler.
`now` stands for `dt.datetime.now()`. -/
def register (db : DB) (now : Nat) (json_input : Data) :
    Except Fault (DB × Nat × J) :=
  match UserSchema.load json_input with
  | Except.error (LoadErr.validation msgs) =>
    Except.ok (db, 422, J.obj [("errors", errsToJ msgs)])
  | Except.error (LoadErr.fault f) => Except.error f
  | Except.ok u =>
    match userGetByEmail db u.email with
    | Except.ok _ =>
      Except.ok (db, 400,
        J.obj [("errors", J.s "That email address is already in the database")])
    | Except.error _ =>
      let newU : UserRec :=
        { id := nextUserId db, email := u.email, password := u.password,
          joined_on := now }
      let db' : DB := { db with users := db.users ++ [newU] }
      let message := "Successfully created user: " ++ newU.email
      let body :=
        match UserSchema.dump newU with
        | J.obj fs => J.obj (fs ++ [("message", J.s message)])
        | other => other
      Except.ok (db', 201, body)

/-- The `get_todo` handler from the source.  `Todo.get` fails with
`DoesNotExist` when the id is absent and the handler installs no `try`, so
the fault escapes; the `if not todo:` guard only runs after a successful
`get`, whose result is always truthy. -/
def get_todo (db : DB) (pk : Nat) : Except Fault (Nat × J) :=
  match todoGetById db pk with
  | Except.error f => Except.error f
  | Except.ok todo =>
    if todoTruthy todo = false then
      Except.ok (404, J.obj [("errors", J.s "Todo could not be find")])
    else
      Except.ok (200, TodoSchema.dump db todo)

/-- The `toggledone` handler from the source: fetch the todo (absent id is
caught and answered with 404), flip `is_done` through a store update keyed by
the instance's id, then dump the fetched in-memory instance (which the update
query does not mutate). -/
def toggledone (db : DB) (pk : Nat) : Except Fault (DB × Nat × J) :=
  match todoGetById db pk with
  | Except.error _ =>
    Except.ok (db, 404, J.obj [("message", J.s "Todo could not be found")])
  | Except.ok todo =>
    let status := !todo.is_done
    let db' := todoUpdateIsDone db todo.id status
    Except.ok (db', 200, TodoSchema.dump db' todo)

/-- The `new_todo` handler body from the source, after the auth gate has
resolved `user`: load the payload via the Todo schema (422 on
`ValidationError`), assign the authenticated user as owner, save, dump.
Assigning `todo.user` when the load produced `None` would raise
`AttributeError`. -/
def new_todo (db : DB) (now : Nat) (user : UserRec) (json_input : Data) :
    Except Fault (DB × Nat × J) :=
  match TodoSchema.load json_input now with
  | Except.error (LoadErr.validation msgs) =>
    Except.ok (db, 422, J.obj [("errors", errsToJ msgs)])
  | Except.error (LoadErr.fault f) => Except.error f
  | Except.ok none =>
    Except.error (Fault.attributeError "NoneType has no attribute user")
  | Except.ok (some draft) =>
    match todoSave db { draft with user := some user.id } with
    | Except.error f => Except.error f
    | Except.ok (db', t) => Except.ok (db', 200, TodoSchema.dump db' t)

/-- The `check_auth` helper from the source: look up the user by email,
absent means invalid, otherwise compare the provided password with the
stored one in plain text. -/
def check_auth (db : DB) (email password : String) : Bool :=
  match userGetByEmail db email with
  | Except.error _ => false
  | Except.ok user => password = user.password

/-- The `requires_auth`-wrapped `new_todo` route from the source: missing or
invalid credentials answer 401 with an authentication challenge; otherwise
the wrapped handler runs with the resolved user passed explicitly. -/
def new_todo_route (db : DB) (now : Nat) (auth : Option (String × String))
    (json_input : Data) : Except Fault (DB × Nat × J) :=
  match auth with
  | none => Except.ok (db, 401, J.obj [("message", J.s "Please authenticate.")])
  | some (un, pw) =>
    if check_auth db un pw then
      match userGetByEmail db un with
      | Except.error f => Except.error f
      | Except.ok user => new_todo db now user json_input
    else
      Except.ok (db, 401, J.obj [("message", J.s "Please authenticate.")])

/-! Helper lemmas about dictionary operations and the store. -/

theorem dlookup_cons (k1 : String) (v1 : J) (tl : List (String × J))
    (key : String) :
    dlookup ((k1, v1) :: tl) key =
      if key = k1 then some v1 else dlookup tl key := rfl

theorem setKey_cons (k1 : String) (v1 : J) (tl : List (String × J))
    (k : String) (v : J) :
    setKey ((k1, v1) :: tl) k v =
      (if k1 = k then (k, v) else (k1, v1)) :: setKey tl k v := rfl

theorem dlookup_setKey_self (d : Data) (k : String) (v w : J)
    (h : dlookup d k = some w) : dlookup (setKey d k v) k = some v := by
  induction d with
  | nil => exact Option.noConfusion h
  | cons hd tl ih =>
    obtain ⟨k1, v1⟩ := hd
    rw [dlookup_cons] at h
    rw [setKey_cons]
    by_cases hk : k1 = k
    · rw [if_pos hk, dlookup_cons, if_pos rfl]
    · have hk' : ¬(k = k1) := fun hh => hk hh.symm
      rw [if_neg hk'] at h
      rw [if_neg hk, dlookup_cons, if_neg hk']
      exact ih h

theorem dlookup_setKey_other (d : Data) (k k' : String) (v : J)
    (h : k' ≠ k) : dlookup (setKey d k v) k' = dlookup d k' := by
  induction d with
  | nil => rfl
  | cons hd tl ih =>
    obtain ⟨k1, v1⟩ := hd
    rw [setKey_cons, dlookup_cons, dlookup_cons]
    by_cases hk : k1 = k
    · have hk2 : ¬(k' = k1) := fun hh => h (hk ▸ hh)
      rw [if_pos hk]
      show (if k' = k then some v else dlookup (setKey tl k v) k') = _
      rw [if_neg h, if_neg hk2]
      exact ih
    · rw [if_neg hk]
      show (if k' = k1 then some v1 else dlookup (setKey tl k v) k') = _
      by_cases hk2 : k' = k1
      · rw [if_pos hk2, if_pos hk2]
      · rw [if_neg hk2, if_neg hk2]
        exact ih

theorem find?_update (l : List TodoRec) (k : Nat) (b : Bool) (pk : Nat) :
    (l.map (fun t => if t.id = k then { t with is_done := b } else t)).find?
        (fun t => t.id = pk)
      = (l.find? (fun t => t.id = pk)).map
          (fun t => if t.id = k then { t with is_done := b } else t) := by
  rw [List.find?_map]
  have hp : ((fun t : TodoRec => decide (t.id = pk)) ∘
      (fun t => if t.id = k then { t with is_done := b } else t)) =
      (fun t : TodoRec => decide (t.id = pk)) := by
    funext t
    by_cases h : t.id = k <;> simp [h]
  rw [hp]

theorem todoGetById_ok (db : DB) (pk : Nat) (t : TodoRec) :
    todoGetById db pk = Except.ok t ↔
      db.todos.find? (fun u => u.id = pk) = some t := by
  unfold todoGetById
  rcases h : db.todos.find? (fun u => u.id = pk) with _ | t' <;> simp [h]

/-! Claim theorems. -/

/-- C1: on a non-existent todo id the source's `get_todo` does not produce
its structured 404 response: `Todo.get` fails with `DoesNotExist`, no handler
catches it, and the `if not todo` guard is unreachable, so the missing-entity
condition escapes to the HTTP layer as an unhandled fault; `toggledone`, by
contrast, does answer a structured 404. -/
theorem get_todo_missing_id_unhandled_fault :
    get_todo { users := [], todos := [] } 1 =
      Except.error (Fault.doesNotExist "Todo") ∧
    toggledone { users := [], todos := [] } 1 =
      Except.ok ({ users := [], todos := [] }, 404,
        J.obj [("message", J.s "Todo could not be found")]) :=
  ⟨rfl, rfl⟩

/-- C3: toggling a todo whose `is_done` is `false` persists `is_done = true`
in the store, but the response body dumps the stale in-memory instance, so
its `done` field is `false` — not the flipped value the claim requires. -/
theorem toggle_response_shows_stale_done :
    toggledone
      { users := [{ id := 1, email := "a@b.com", password := "secret1",
                    joined_on := 0 }],
        todos := [{ id := 1, content := "x", is_done := false, user := 1,
                    posted_on := 0 }] } 1 =
    Except.ok
      ({ users := [{ id := 1, email := "a@b.com", password := "secret1",
                     joined_on := 0 }],
         todos := [{ id := 1, content := "x", is_done := true, user := 1,
                     posted_on := 0 }] },
       200,
       J.obj [("todo", J.obj [("id", J.n 1), ("done", J.b false),
              ("user", J.obj [("id", J.n 1), ("email", J.s "a@b.com")]),
              ("content", J.s "x"), ("posted_on", J.n 0)])]) ∧
    J.b false ≠ J.b true :=
  ⟨rfl, by simp⟩

/-- C4: a registration payload with the `email` field missing does not fail
with a `ValidationError` citing `email`: the `pre_load` hook indexes
`data["email"]` before any validation runs, raising a `KeyError` that no
handler catches, so `register` escapes with an unhandled fault instead of
the 422 response. -/
theorem register_missing_email_keyerror :
    register { users := [], todos := [] } 0 [("password", J.s "secret1")] =
      Except.error (Fault.keyError "email") := rfl

/-- C5 counterexample: registering a payload whose email differs from a
stored user's email only in case and surrounding whitespace is answered
with HTTP 400 and no new user, but the body string is "That email address
is already in the database" (capital T, under the `errors` key), which is
not the claim's message "that email address is already in the database". -/
theorem register_conflict_capital_that :
    register
      { users := [{ id := 1, email := "a@b.com", password := "secret1",
                    joined_on := 0 }], todos := [] }
      5 [("email", J.s " A@B.com "), ("password", J.s "secret1")] =
    Except.ok
      ({ users := [{ id := 1, email := "a@b.com", password := "secret1",
                     joined_on := 0 }], todos := [] },
       400,
       J.obj [("errors",
               J.s "That email address is already in the database")]) ∧
    ("That email address is already in the database" : String) ≠
      "that email address is already in the database" :=
  ⟨rfl, by decide⟩

/-- C2: toggling a stored todo rewrites the store so that only the targeted
row's `is_done` field changes: the users table is untouched and the todos
table is the pointwise image that flips `is_done` on the row with the
fetched todo's id and leaves every other row — and every other field of the
targeted row — exactly as it was. -/
theorem toggle_changes_only_target_is_done (db : DB) (pk : Nat) (t : TodoRec)
    (h : todoGetById db pk = Except.ok t) :
    ∃ body, toggledone db pk =
      Except.ok
        ({ users := db.users,
           todos := db.todos.map
             (fun u => if u.id = t.id then { u with is_done := !t.is_done }
                       else u) },
         200, body) := by
  unfold toggledone
  rw [h]
  exact ⟨_, rfl⟩

/-- Witness for C2 at a store with two todos: toggling id 1 flips only the
first row's `is_done` and leaves the second row untouched. -/
theorem toggle_changes_only_target_is_done_witness :
    todoGetById
      { users := [{ id := 1, email := "a@b.com", password := "secret1",
                    joined_on := 0 }],
        todos := [{ id := 1, content := "x", is_done := false, user := 1,
                    posted_on := 0 },
                  { id := 2, content := "y", is_done := true, user := 1,
                    posted_on := 3 }] } 1 =
      Except.ok { id := 1, content := "x", is_done := false, user := 1,
                  posted_on := 0 } ∧
    ∃ body, toggledone
      { users := [{ id := 1, email := "a@b.com", password := "secret1",
                    joined_on := 0 }],
        todos := [{ id := 1, content := "x", is_done := false, user := 1,
                    posted_on := 0 },
                  { id := 2, content := "y", is_done := true, user := 1,
                    posted_on := 3 }] } 1 =
      Except.ok
        ({ users := [{ id := 1, email := "a@b.com", password := "secret1",
                       joined_on := 0 }],
           todos := [{ id := 1, content := "x", is_done := false, user := 1,
                       posted_on := 0 },
                     { id := 2, content := "y", is_done := true, user := 1,
                       posted_on := 3 }].map
             (fun u => if u.id = 1 then { u with is_done := !false } else u) },
         200, body) :=
  ⟨rfl, toggle_changes_only_target_is_done _ 1
    { id := 1, content := "x", is_done := false, user := 1, posted_on := 0 }
    rfl⟩

/-- C6: toggling the same stored todo twice in succession restores its
persisted `is_done` to the original value. -/
theorem toggle_twice_restores (db : DB) (pk : Nat) (t : TodoRec)
    (h : todoGetById db pk = Except.ok t) :
    ∃ db1 b1 db2 b2, toggledone db pk = Except.ok (db1, 200, b1) ∧
      toggledone db1 pk = Except.ok (db2, 200, b2) ∧
      ∃ t2, todoGetById db2 pk = Except.ok t2 ∧ t2.is_done = t.is_done := by
  have hfind : db.todos.find? (fun u => u.id = pk) = some t :=
    (todoGetById_ok db pk t).mp h
  have h1 : toggledone db pk =
      Except.ok (todoUpdateIsDone db t.id (!t.is_done), 200,
        TodoSchema.dump (todoUpdateIsDone db t.id (!t.is_done)) t) := by
    unfold toggledone
    rw [h]
  have hfind1 : (todoUpdateIsDone db t.id (!t.is_done)).todos.find?
      (fun u => u.id = pk) = some { t with is_done := !t.is_done } := by
    show (db.todos.map
        (fun u => if u.id = t.id then { u with is_done := !t.is_done }
                  else u)).find? (fun u => u.id = pk) = _
    rw [find?_update, hfind]
    simp
  have hget1 : todoGetById (todoUpdateIsDone db t.id (!t.is_done)) pk =
      Except.ok { t with is_done := !t.is_done } :=
    (todoGetById_ok _ pk _).mpr hfind1
  have h2 : toggledone (todoUpdateIsDone db t.id (!t.is_done)) pk =
      Except.ok
        (todoUpdateIsDone (todoUpdateIsDone db t.id (!t.is_done)) t.id
          (!!t.is_done), 200,
         TodoSchema.dump
           (todoUpdateIsDone (todoUpdateIsDone db t.id (!t.is_done)) t.id
             (!!t.is_done))
           { t with is_done := !t.is_done }) := by
    unfold toggledone
    rw [hget1]
  have hfind2 : (todoUpdateIsDone (todoUpdateIsDone db t.id (!t.is_done)) t.id
      (!!t.is_done)).todos.find? (fun u => u.id = pk) =
      some { t with is_done := !!t.is_done } := by
    show ((todoUpdateIsDone db t.id (!t.is_done)).todos.map
        (fun u => if u.id = t.id then { u with is_done := !!t.is_done }
                  else u)).find? (fun u => u.id = pk) = _
    rw [find?_update, hfind1]
    simp
  refine ⟨_, _, _, _, h1, h2, ⟨{ t with is_done := !!t.is_done },
    (todoGetById_ok _ pk _).mpr hfind2, ?_⟩⟩
  show (!!t.is_done) = t.is_done
  exact Bool.not_not t.is_done

/-- Witness for C6: a todo stored with `is_done = false` is back to
`is_done = false` after two toggles. -/
theorem toggle_twice_restores_witness :
    todoGetById
      { users := [],
        todos := [{ id := 1, content := "x", is_done := false, user := 1,
                    posted_on := 0 }] } 1 =
      Except.ok { id := 1, content := "x", is_done := false, user := 1,
                  posted_on := 0 } ∧
    ∃ db1 b1 db2 b2, toggledone
        { users := [],
          todos := [{ id := 1, content := "x", is_done := false, user := 1,
                      posted_on := 0 }] } 1 = Except.ok (db1, 200, b1) ∧
      toggledone db1 1 = Except.ok (db2, 200, b2) ∧
      ∃ t2, todoGetById db2 1 = Except.ok t2 ∧
        t2.is_done = false :=
  ⟨rfl, toggle_twice_restores _ 1
    { id := 1, content := "x", is_done := false, user := 1, posted_on := 0 }
    rfl⟩

theorem userLoad_ok (input : Data) (e p : String)
    (he : dlookup input "email" = some (J.s e))
    (hp : dlookup input "password" = some (J.s p))
    (hem : isEmail (pyStrip (pyLower e)) = true)
    (hlen : 6 ≤ p.length ∧ p.length ≤ 36) :
    UserSchema.load input =
      Except.ok { email := pyStrip (pyLower e), password := p } := by
  have hde : dlookup (setKey input "email" (J.s (pyStrip (pyLower e)))) "email"
      = some (J.s (pyStrip (pyLower e))) :=
    dlookup_setKey_self input "email" _ _ he
  have hdp : dlookup (setKey input "email" (J.s (pyStrip (pyLower e))))
      "password" = some (J.s p) := by
    rw [dlookup_setKey_other input "email" "password" _ (by decide)]
    exact hp
  simp only [UserSchema.load, UserSchema.process_input, he, hde, hdp,
    UserSchema.validateFields, hem, hlen, if_true, List.nil_append,
    and_self, ite_true]

/-- C5 (amended): a registration whose payload email, after lower-casing and
trimming, equals the stored email of an existing user — in particular one
differing only in letter case — is answered with HTTP 400 and the body
`{errors: "That email address is already in the database"}` (capital T), and
the store is left unchanged, so no new user is created. -/
theorem register_conflict_answers_400 (db : DB) (now : Nat) (input : Data)
    (e p : String) (u0 : UserRec)
    (he : dlookup input "email" = some (J.s e))
    (hp : dlookup input "password" = some (J.s p))
    (hem : isEmail (pyStrip (pyLower e)) = true)
    (hlen : 6 ≤ p.length ∧ p.length ≤ 36)
    (hex : db.users.find? (fun u => u.email = pyStrip (pyLower e)) = some u0) :
    register db now input =
      Except.ok (db, 400,
        J.obj [("errors",
                J.s "That email address is already in the database")]) := by
  have hload := userLoad_ok input e p he hp hem hlen
  simp only [register, hload, userGetByEmail, hex]

/-- Witness for C5 (amended): with `a@b.com` stored, registering
`" A@B.com "` yields the 400 conflict response and an unchanged store. -/
theorem register_conflict_answers_400_witness :
    dlookup [("email", J.s " A@B.com "), ("password", J.s "secret1")] "email"
      = some (J.s " A@B.com ") ∧
    register
      { users := [{ id := 1, email := "a@b.com", password := "pw12345",
                    joined_on := 0 }], todos := [] }
      7 [("email", J.s " A@B.com "), ("password", J.s "secret1")] =
      Except.ok
        ({ users := [{ id := 1, email := "a@b.com", password := "pw12345",
                       joined_on := 0 }], todos := [] }, 400,
         J.obj [("errors",
                 J.s "That email address is already in the database")]) :=
  ⟨rfl, register_conflict_answers_400 _ 7 _ " A@B.com " "secret1"
    { id := 1, email := "a@b.com", password := "pw12345", joined_on := 0 }
    rfl rfl rfl (by constructor <;> decide) rfl⟩

/-- C7: a valid registration with a previously-unused email succeeds with
HTTP 201; the stored email is the payload email lower-cased and trimmed, the
response body carries the user envelope without any password field, and the
`message` field contains the normalized email. -/
theorem register_success_normalizes_and_omits_password (db : DB) (now : Nat)
    (input : Data) (e p : String)
    (he : dlookup input "email" = some (J.s e))
    (hp : dlookup input "password" = some (J.s p))
    (hem : isEmail (pyStrip (pyLower e)) = true)
    (hlen : 6 ≤ p.length ∧ p.length ≤ 36)
    (hnew : db.users.find? (fun u => u.email = pyStrip (pyLower e)) = none) :
    register db now input =
      Except.ok
        ({ users := db.users ++
             [{ id := nextUserId db, email := pyStrip (pyLower e),
                password := p, joined_on := now }], todos := db.todos },
         201,
         J.obj [("user", J.obj [("id", J.n (nextUserId db)),
                                ("email", J.s (pyStrip (pyLower e))),
                                ("joined_on", J.n now)]),
                ("message",
                 J.s ("Successfully created user: " ++
                      pyStrip (pyLower e)))]) ∧
    dlookup [("id", J.n (nextUserId db)),
             ("email", J.s (pyStrip (pyLower e))),
             ("joined_on", J.n now)] "password" = none := by
  have hload := userLoad_ok input e p he hp hem hlen
  constructor
  · simp only [register, hload, userGetByEmail, hnew, UserSchema.dump]
    rfl
  · rfl

/-- Witness for C7: registering `{email: " A@B.com ", password: "secret1"}`
on an empty store creates the user with email `a@b.com` and answers 201. -/
theorem register_success_witness :
    dlookup [("email", J.s " A@B.com "), ("password", J.s "secret1")] "email"
      = some (J.s " A@B.com ") ∧
    pyStrip (pyLower " A@B.com ") = "a@b.com" ∧
    (register { users := [], todos := [] } 3
        [("email", J.s " A@B.com "), ("password", J.s "secret1")] =
      Except.ok
        ({ users := [] ++
             [{ id := nextUserId { users := [], todos := [] },
                email := pyStrip (pyLower " A@B.com "),
                password := "secret1", joined_on := 3 }], todos := [] },
         201,
         J.obj [("user",
                 J.obj [("id", J.n (nextUserId { users := [], todos := [] })),
                        ("email", J.s (pyStrip (pyLower " A@B.com "))),
                        ("joined_on", J.n 3)]),
                ("message",
                 J.s ("Successfully created user: " ++
                      pyStrip (pyLower " A@B.com ")))]) ∧
      dlookup [("id", J.n (nextUserId { users := [], todos := [] })),
               ("email", J.s (pyStrip (pyLower " A@B.com "))),
               ("joined_on", J.n 3)] "password" = none) :=
  ⟨rfl, rfl,
   register_success_normalizes_and_omits_password
     { users := [], todos := [] } 3
     [("email", J.s " A@B.com "), ("password", J.s "secret1")]
     " A@B.com " "secret1" rfl rfl rfl (by constructor <;> decide) rfl⟩

theorem todoLoad_ok_no_done (input : Data) (now : Nat) (c : String)
    (hc : dlookup input "content" = some (J.s c))
    (hd : dlookup input "done" = none) :
    TodoSchema.load input now =
      Except.ok (some { content := c, is_done := false, posted_on := now,
                        user := none }) := by
  simp only [TodoSchema.load, TodoSchema.validateFields,
    TodoSchema.validatedData, hc, hd, List.nil_append]
  rfl

/-- C8: an authenticated create-todo with a payload holding a non-empty
content string and no `done` field persists a todo with `is_done = false`,
owner the user resolved by the auth gate and `posted_on` the creation time,
and answers with the singular `todo` envelope whose nested user summary
carries only `id` and `email` — no `password` or `joined_on` field. -/
theorem create_todo_success (db : DB) (now : Nat) (em pw : String)
    (u : UserRec) (input : Data) (c : String)
    (hu : db.users.find? (fun x => x.email = em) = some u)
    (hpw : pw = u.password)
    (hid : db.users.find? (fun x => x.id = u.id) = some u)
    (hc : dlookup input "content" = some (J.s c))
    (hcne : c ≠ "")
    (hd : dlookup input "done" = none) :
    new_todo_route db now (some (em, pw)) input =
      Except.ok
        ({ users := db.users,
           todos := db.todos ++
             [{ id := nextTodoId db, content := c, is_done := false,
                user := u.id, posted_on := now }] },
         200,
         J.obj [("todo",
                 J.obj [("id", J.n (nextTodoId db)), ("done", J.b false),
                        ("user", J.obj [("id", J.n u.id),
                                        ("email", J.s u.email)]),
                        ("content", J.s c), ("posted_on", J.n now)])]) ∧
    dlookup [("id", J.n u.id), ("email", J.s u.email)] "password" = none ∧
    dlookup [("id", J.n u.id), ("email", J.s u.email)] "joined_on" = none := by
  subst hpw
  have hload := todoLoad_ok_no_done input now c hc hd
  refine ⟨?_, rfl, rfl⟩
  simp only [new_todo_route, check_auth, userGetByEmail, hu,
    decide_eq_true_eq, eq_self_iff_true, if_true, new_todo, hload, todoSave,
    TodoSchema.dump, userNested, hid]

/-- Witness for C8: with user 1 stored, creating `{content: "buy milk"}`
with that user's credentials appends the todo and returns its envelope. -/
theorem create_todo_success_witness :
    ({ users := [{ id := 1, email := "a@b.com", password := "secret1",
                   joined_on := 0 }], todos := [] } : DB).users.find?
      (fun x => x.email = "a@b.com") =
      some { id := 1, email := "a@b.com", password := "secret1",
             joined_on := 0 } ∧
    ("buy milk" : String) ≠ "" ∧
    (new_todo_route
        { users := [{ id := 1, email := "a@b.com", password := "secret1",
                      joined_on := 0 }], todos := [] }
        9 (some ("a@b.com", "secret1")) [("content", J.s "buy milk")] =
      Except.ok
        ({ users := [{ id := 1, email := "a@b.com", password := "secret1",
                       joined_on := 0 }],
           todos := [] ++
             [{ id := nextTodoId
                  { users := [{ id := 1, email := "a@b.com",
                                password := "secret1", joined_on := 0 }],
                    todos := [] },
                content := "buy milk", is_done := false, user := 1,
                posted_on := 9 }] },
         200,
         J.obj [("todo",
                 J.obj [("id", J.n (nextTodoId
                          { users := [{ id := 1, email := "a@b.com",
                                        password := "secret1",
                                        joined_on := 0 }], todos := [] })),
                        ("done", J.b false),
                        ("user", J.obj [("id", J.n 1),
                                        ("email", J.s "a@b.com")]),
                        ("content", J.s "buy milk"),
                        ("posted_on", J.n 9)])]) ∧
      dlookup [("id", J.n 1), ("email", J.s "a@b.com")] "password" = none ∧
      dlookup [("id", J.n 1), ("email", J.s "a@b.com")] "joined_on" = none) :=
  ⟨rfl, by decide,
   create_todo_success
     { users := [{ id := 1, email := "a@b.com", password := "secret1",
                   joined_on := 0 }], todos := [] }
     9 "a@b.com" "secret1"
     { id := 1, email := "a@b.com", password := "secret1", joined_on := 0 }
     [("content", J.s "buy milk")] "buy milk"
     rfl rfl rfl rfl (by decide) rfl⟩

/-- C9: a create-todo payload lacking `content` fails schema validation
after successful authentication: the handler answers HTTP 422 with an
`errors` body keyed by field, the `content` key carries the
missing-required-field message, and the store is returned unchanged. -/
theorem create_todo_missing_content (db : DB) (now : Nat) (u : UserRec)
    (input : Data) (h : dlookup input "content" = none) :
    ∃ errs, new_todo db now u input =
      Except.ok (db, 422, J.obj [("errors", errsToJ errs)]) ∧
      ("content", ["Missing data for required field."]) ∈ errs := by
  rcases hd : dlookup input "done" with _ | v
  · refine ⟨[("content", ["Missing data for required field."])], ?_, by simp⟩
    simp only [new_todo, TodoSchema.load, TodoSchema.validateFields, h, hd,
      List.nil_append]
  · cases v with
    | b bv =>
      refine ⟨[("content", ["Missing data for required field."])], ?_,
        by simp⟩
      simp only [new_todo, TodoSchema.load, TodoSchema.validateFields, h, hd,
        List.nil_append]
    | s sv =>
      refine ⟨[("done", ["Not a valid boolean."]),
               ("content", ["Missing data for required field."])], ?_,
        by simp⟩
      simp only [new_todo, TodoSchema.load, TodoSchema.validateFields, h, hd,
        List.cons_append, List.nil_append]
    | n nv =>
      refine ⟨[("done", ["Not a valid boolean."]),
               ("content", ["Missing data for required field."])], ?_,
        by simp⟩
      simp only [new_todo, TodoSchema.load, TodoSchema.validateFields, h, hd,
        List.cons_append, List.nil_append]
    | obj fs =>
      refine ⟨[("done", ["Not a valid boolean."]),
               ("content", ["Missing data for required field."])], ?_,
        by simp⟩
      simp only [new_todo, TodoSchema.load, TodoSchema.validateFields, h, hd,
        List.cons_append, List.nil_append]
    | arr es =>
      refine ⟨[("done", ["Not a valid boolean."]),
               ("content", ["Missing data for required field."])], ?_,
        by simp⟩
      simp only [new_todo, TodoSchema.load, TodoSchema.validateFields, h, hd,
        List.cons_append, List.nil_append]
    | null =>
      refine ⟨[("done", ["Not a valid boolean."]),
               ("content", ["Missing data for required field."])], ?_,
        by simp⟩
      simp only [new_todo, TodoSchema.load, TodoSchema.validateFields, h, hd,
        List.cons_append, List.nil_append]

/-- Witness for C9: an empty payload is answered 422 with the `content`
error and leaves the store unchanged. -/
theorem create_todo_missing_content_witness :
    dlookup ([] : List (String × J)) "content" = none ∧
    ∃ errs, new_todo { users := [], todos := [] } 0
        { id := 1, email := "a@b.com", password := "secret1",
          joined_on := 0 } [] =
      Except.ok ({ users := [], todos := [] }, 422,
        J.obj [("errors", errsToJ errs)]) ∧
      ("content", ["Missing data for required field."]) ∈ errs :=
  ⟨rfl, create_todo_missing_content { users := [], todos := [] } 0
    { id := 1, email := "a@b.com", password := "secret1", joined_on := 0 }
    [] rfl⟩

theorem todoLoad_validation (input : Data) (now : Nat)
    (h : TodoSchema.validateFields input ≠ []) :
    ∃ errs, TodoSchema.load input now =
      Except.error (LoadErr.validation errs) := by
  rcases hv : TodoSchema.validateFields input with _ | ⟨e0, es⟩
  · exact absurd hv h
  · exact ⟨e0 :: es, by simp only [TodoSchema.load, hv]⟩

/-- C10: a Todo-schema load either fails with a `ValidationError` or
succeeds with a materialized todo holding the payload's content and a
defined `is_done`; it never raises a hook fault and never produces `None`,
so `make_object`'s empty-data branch is unreachable on the success path and
`new_todo` always receives an object before assigning the owner. -/
theorem todoLoad_never_none (input : Data) (now : Nat) :
    ((∃ errs, TodoSchema.load input now =
        Except.error (LoadErr.validation errs)) ∨
     (∃ c b, dlookup input "content" = some (J.s c) ∧
        TodoSchema.load input now =
          Except.ok (some { content := c, is_done := b, posted_on := now,
                            user := none }))) ∧
    (∀ (db : DB) (u : UserRec) (f : Fault),
        new_todo db now u input ≠ Except.error f) := by
  have hmain : (∃ errs, TodoSchema.load input now =
        Except.error (LoadErr.validation errs)) ∨
      (∃ c b, dlookup input "content" = some (J.s c) ∧
        TodoSchema.load input now =
          Except.ok (some { content := c, is_done := b, posted_on := now,
                            user := none })) := by
    by_cases hv : TodoSchema.validateFields input = []
    · obtain ⟨hdone, hcont⟩ := List.append_eq_nil.mp hv
      rcases hc : dlookup input "content" with _ | cv
      · rw [hc] at hcont
        exact List.noConfusion hcont
      · cases cv with
        | s c =>
          rcases hd : dlookup input "done" with _ | dv
          · refine Or.inr ⟨c, false, rfl, ?_⟩
            simp only [TodoSchema.load, hv, TodoSchema.validatedData, hc, hd,
              List.cons_append, List.nil_append]
            rfl
          · cases dv with
            | b bv =>
              refine Or.inr ⟨c, bv, rfl, ?_⟩
              simp only [TodoSchema.load, hv, TodoSchema.validatedData, hc,
                hd, List.cons_append, List.nil_append]
              rfl
            | s sv => rw [hd] at hdone; exact List.noConfusion hdone
            | n nv => rw [hd] at hdone; exact List.noConfusion hdone
            | obj fs => rw [hd] at hdone; exact List.noConfusion hdone
            | arr es => rw [hd] at hdone; exact List.noConfusion hdone
            | null => rw [hd] at hdone; exact List.noConfusion hdone
        | n nv => rw [hc] at hcont; exact List.noConfusion hcont
        | b bv => rw [hc] at hcont; exact List.noConfusion hcont
        | obj fs => rw [hc] at hcont; exact List.noConfusion hcont
        | arr es => rw [hc] at hcont; exact List.noConfusion hcont
        | null => rw [hc] at hcont; exact List.noConfusion hcont
    · exact Or.inl (todoLoad_validation input now hv)
  refine ⟨hmain, ?_⟩
  intro db u f heq
  rcases hmain with ⟨errs, hload⟩ | ⟨c, b, _, hload⟩
  · rw [new_todo, hload] at heq
    exact Except.noConfusion heq
  · rw [new_todo, hload] at heq
    simp only [todoSave] at heq
    exact Except.noConfusion heq
